import Mathlib

/-!
Verification of the divisional-workplan wizard (src/app_4.py) against its
natural-language specification.  The Python source is shallowly embedded:
pure logic becomes Lean functions, file-system and network effects become
explicit state passing, and every fallible step is modelled by the explicit
outcome the Python exception handling distinguishes.
-/

namespace Workplan

/-! ### Configuration (module-level constants and secrets of app_4.py) -/

/-- Configuration surface of the script: `USE_GITHUB`, `GITHUB_TOKEN`,
`GITHUB_REPO`, `GITHUB_BRANCH`.  `GITHUB_TOKEN` is `st.secrets.get(...)`,
which may be absent (`none`) or present; Python truthiness of a string
treats the empty string as falsy, so `not GITHUB_TOKEN` is modelled by
`tokenFalsy`. -/
structure GhConfig where
  use_github : Bool
  github_token : Option String
  github_repo : String
  github_branch : String
deriving DecidableEq, Repr

/-- Python falsiness of an optional string: `None` or `""`. -/
def tokenFalsy : Option String → Bool
  | none => true
  | some s => s = ""

/-! ### Base64 (Python `base64.b64encode` over the file bytes) -/

/-- The standard base64 alphabet, indexed 0..63. -/
def b64alphabet : List Char :=
  "ABCDEFGHIJKLMNOPQRSTUVWXYZabcdefghijklmnopqrstuvwxyz0123456789+/".data

/-- One base64 digit for a 6-bit value. -/
def b64digit (n : Nat) : Char := b64alphabet.getD n '?'

/-- Base64-encode a byte list, RFC 4648 with `=` padding, as
`base64.b64encode` does. -/
def b64encodeBytes : List Nat → List Char
  | [] => []
  | [a] =>
      [b64digit (a / 4), b64digit (a % 4 * 16), '=', '=']
  | [a, b] =>
      [b64digit (a / 4), b64digit (a % 4 * 16 + b / 16), b64digit (b % 16 * 4), '=']
  | a :: b :: c :: rest =>
      b64digit (a / 4) :: b64digit (a % 4 * 16 + b / 16) ::
      b64digit (b % 16 * 4 + c / 64) :: b64digit (c % 64) :: b64encodeBytes rest

/-- File contents are modelled as byte lists; `content_b64` is their
base64 encoding rendered as a string. -/
def b64encode (bytes : List Nat) : String := String.mk (b64encodeBytes bytes)

/-! ### HTTP transport model for `push_file_to_github`

The function issues at most one GET and one PUT through `requests`.  A
`Transport` gives the response each request would receive (`Except` for a
raised `requests` exception); the function returns, next to its
`(success, message)` pair, the ordered trace of requests actually issued,
so that "performs zero network calls" is a statement about the trace. -/

/-- A PUT commit payload as built by `push_file_to_github`: message,
base64 content, branch, and the optional `sha` key (present only when a
revision marker was extracted from the GET response). -/
structure PutPayload where
  message : String
  content : String
  branch : String
  sha : Option String
deriving DecidableEq, Repr

/-- An HTTP response: its status code, the result of
`r.json().get("sha")` (collapsed to `none` when the body is unparseable
JSON or has no `sha` field), and the raw body text used in error
messages. -/
structure HttpResp where
  status : Nat
  shaField : Option String
  text : String
deriving DecidableEq, Repr

/-- One network request issued by `push_file_to_github`. -/
inductive NetCall where
  | get
  | put (payload : PutPayload)
deriving DecidableEq, Repr

/-- Responses the network would give: the GET response, and the PUT
response as a function of the payload sent.  `Except.error` models a
raised `requests` exception. -/
structure Transport where
  getResp : Except String HttpResp
  putResp : PutPayload → Except String HttpResp

/-- Shallow embedding of `push_file_to_github(local_path, github_path)`
(src/app_4.py lines 53-112).  `localFile` is the result of reading
`local_path` (`none` when `open` raises); the return value pairs the
Python `(success, message)` tuple with the trace of network calls
issued, in order. -/
def push_file_to_github (cfg : GhConfig) (localFile : Option (List Nat))
    (github_path : String) (t : Transport) : (Bool × String) × List NetCall :=
  if !cfg.use_github then
    ((false, "GitHub upload disabled by configuration."), [])
  else if tokenFalsy cfg.github_token then
    ((false, "GITHUB_TOKEN missing in Streamlit secrets."), [])
  else if cfg.github_repo = "" then
    ((false, "GITHUB_REPO not configured."), [])
  else
    match localFile with
    | none => ((false, "Failed to read local file for upload"), [])
    | some bytes =>
      let content_b64 := b64encode bytes
      match t.getResp with
      | .error e => ((false, "GitHub API GET failed: " ++ e), [.get])
      | .ok r =>
        let sha : Option String :=
          if r.status = 200 then r.shaField else none
        if r.status ≠ 200 ∧ r.status ≠ 404 then
          ((false, "GitHub API GET error: " ++ toString r.status ++ " - " ++ r.text),
            [.get])
        else
          let commit_msg :=
            if sha.isSome then "Update " ++ github_path else "Add " ++ github_path
          let payload : PutPayload :=
            { message := commit_msg, content := content_b64,
              branch := cfg.github_branch, sha := sha }
          match t.putResp payload with
          | .error e => ((false, "GitHub API PUT failed: " ++ e), [.get, .put payload])
          | .ok r2 =>
            if r2.status = 200 ∨ r2.status = 201 then
              ((true, "Pushed to GitHub: " ++ github_path), [.get, .put payload])
            else
              ((false, "GitHub upload failed: " ++ toString r2.status ++ " - " ++ r2.text),
                [.get, .put payload])

/-! ### Remote store model (GitHub contents API)

The remote store itself is not code of this repository; its behaviour is
the external contract the client talks to. -/

/-- A record held by the remote store at some path: its (base64) content
and its revision marker. -/
structure RemoteRecord where
  contentB64 : String
  sha : String
deriving DecidableEq, Repr

/-- The remote store: an association of paths to records. -/
abbrev RemoteStore := List (String × RemoteRecord)

/-- Revision marker the store assigns to stored content (the marker is a
function of the content, as a git blob sha is; its exact shape is
irrelevant to the client). -/
def shaOf (contentB64 : String) : String := "sha-" ++ contentB64

/-- Modelled from the spec: the remote store's read-record-at-path verb —
HTTP 200 with the record's revision marker when a record exists at the
path, HTTP 404 otherwise. -/
def remoteGet (store : RemoteStore) (path : String) : HttpResp :=
  match store.lookup path with
  | some rec => { status := 200, shaField := some rec.sha, text := "found" }
  | none => { status := 404, shaField := none, text := "Not Found" }

/-- Modelled from the spec: the remote store's create/update verbs under
the optimistic-concurrency contract — a revision marker is required to
update an existing record (200) and must be absent to create a new one
(201); a stale or misplaced marker is rejected without changing the
store. -/
def remotePut (store : RemoteStore) (path : String) (p : PutPayload) :
    HttpResp × RemoteStore :=
  match store.lookup path with
  | some rec =>
      match p.sha with
      | some s =>
          if s = rec.sha then
            ({ status := 200, shaField := none, text := "updated" },
              (path, ⟨p.content, shaOf p.content⟩) :: store.eraseP (·.1 == path))
          else
            ({ status := 409, shaField := none, text := "sha mismatch" }, store)
      | none => ({ status := 422, shaField := none, text := "sha required" }, store)
  | none =>
      match p.sha with
      | none =>
          ({ status := 201, shaField := none, text := "created" },
            (path, ⟨p.content, shaOf p.content⟩) :: store)
      | some _ => ({ status := 422, shaField := none, text := "no record to update" }, store)

/-- The transport a live remote store presents for requests at `path`:
every request reaches the store and receives that store's response (no
network exceptions). -/
def storeTransport (store : RemoteStore) (path : String) : Transport :=
  { getResp := .ok (remoteGet store path),
    putResp := fun p => .ok (remotePut store path p).1 }

/-- Replay a trace of issued requests against the store: GETs leave it
unchanged, each PUT advances it by `remotePut`. -/
def applyCalls (store : RemoteStore) (path : String) : List NetCall → RemoteStore
  | [] => store
  | .get :: rest => applyCalls store path rest
  | .put p :: rest => applyCalls (remotePut store path p).2 path rest

/-- One complete upsert call against a live remote store: run
`push_file_to_github` over the store's transport and advance the store by
the requests that were issued.  Returns the Python result pair, the
request trace, and the store afterwards. -/
def pushRound (cfg : GhConfig) (localFile : Option (List Nat)) (path : String)
    (store : RemoteStore) : (Bool × String) × List NetCall × RemoteStore :=
  let res := push_file_to_github cfg localFile path (storeTransport store path)
  (res.1, res.2, applyCalls store path res.2)

/-! ### Master-log persistence (`save_to_master_excel`) -/

/-- One row of the master log, as assembled in `finish_and_save`
(src/app_4.py lines 419-424). -/
structure LogRow where
  timestamp : String
  division : String
  goals : String
  data : String
deriving DecidableEq, Repr

/-- The content found at a log path: a readable spreadsheet carrying a
row list, or a present-but-unreadable file (`pd.read_excel` raises). -/
inductive LogFile where
  | table (rows : List LogRow)
  | corrupt
deriving DecidableEq, Repr

/-- The file-system locations `save_to_master_excel` touches: the master
log at `MASTER_LOG` and the temp-directory fallback copy. -/
structure LogFS where
  master : Option LogFile
  fallbackMaster : Option LogFile
deriving DecidableEq, Repr

/-- How the two `to_excel` attempts behave in the current environment:
the primary write either succeeds, raises `PermissionError`, or raises
some other exception; the fallback write either succeeds or raises. -/
inductive WriteOutcome where
  | ok
  | permissionError
  | otherError (e : String)
deriving DecidableEq, Repr

structure WriteEnv where
  primaryWrite : WriteOutcome
  fallbackWrite : Bool
deriving DecidableEq, Repr

/-- The rows `pd.read_excel` yields for the existing master log: absent
file and unreadable file both collapse to the empty table
(src/app_4.py lines 161-167). -/
def readOldRows (f : Option LogFile) : List LogRow :=
  match f with
  | some (.table rows) => rows
  | some .corrupt => []
  | none => []

/-- Shallow embedding of `save_to_master_excel(row_dict)` (src/app_4.py
lines 147-201).  `push` is the `(success, message)` pair returned by the
`push_file_to_github` call on the written file; the result pairs the
Python `(success, message)` return with the file system afterwards. -/
def save_to_master_excel (row : LogRow) (fs : LogFS) (env : WriteEnv)
    (push : Bool × String) : (Bool × String) × LogFS :=
  let df_old := readOldRows fs.master
  let df_final := df_old ++ [row]
  match env.primaryWrite with
  | .otherError e => ((false, "Failed to write master log: " ++ e), fs)
  | .permissionError =>
      if env.fallbackWrite then
        let fs' : LogFS := { fs with fallbackMaster := some (.table df_final) }
        if push.1 then ((true, ""), fs')
        else ((true, "Master log written locally at fallback. GitHub push: " ++ push.2), fs')
      else ((false, "Failed to write master log even to fallback"), fs)
  | .ok =>
      let fs' : LogFS := { fs with master := some (.table df_final) }
      if push.1 then ((true, ""), fs')
      else ((true, "Master log written locally at master. GitHub push: " ++ push.2), fs')

/-- N successive `save_to_master_excel` calls, threading the file
system; each call may see its own push outcome. -/
def appendAll (fs : LogFS) (env : WriteEnv) : List (LogRow × (Bool × String)) → LogFS
  | [] => fs
  | (row, push) :: rest => appendAll (save_to_master_excel row fs env push).2 env rest

/-! ### Wizard navigation (`next_step` / `prev_step`) -/

/-- The navigation-relevant slice of `st.session_state`: the 1-indexed
current step (a Python `int`, unbounded). -/
structure SessionState where
  step : Int
deriving DecidableEq, Repr

/-- Shallow embedding of `next_step()` (src/app_4.py lines 136-137): the
step is incremented unconditionally. -/
def next_step (s : SessionState) : SessionState :=
  { s with step := s.step + 1 }

/-- Shallow embedding of `prev_step()` (src/app_4.py lines 139-141): the
step is decremented only when it is above 1. -/
def prev_step (s : SessionState) : SessionState :=
  if s.step > 1 then { s with step := s.step - 1 } else s

/-- The number of wizard steps app_4.py renders: step pages 1 through 8
(step 8 is the terminal Annexes-and-Export page). -/
def stepCount : Int := 8

/-- A navigation click: the Next button or the Previous button. -/
inductive NavOp where
  | next
  | prev
deriving DecidableEq, Repr

/-- Run a sequence of navigation clicks from a session state. -/
def runNav (s : SessionState) : List NavOp → SessionState
  | [] => s
  | .next :: rest => runNav (next_step s) rest
  | .prev :: rest => runNav (prev_step s) rest

/-! ### Annex storage (`save_annexes_immediate`) -/

/-- The annex directory's file system: an association of paths to byte
contents (bytes kept abstract as strings). -/
abbrev AnnexFS := List (String × String)

/-- `os.path.exists` over the modelled file system. -/
def fsExists (fs : AnnexFS) (p : String) : Bool := (fs.lookup p).isSome

/-- Writing a file: the path now holds the new content (an existing file
at the same path is overwritten). -/
def fsWrite (fs : AnnexFS) (p : String) (c : String) : AnnexFS :=
  (p, c) :: fs.eraseP (·.1 == p)

/-- Index of the last '.' in a character list, if any. -/
def lastDotIdx (cs : List Char) : Option Nat :=
  match cs.reverse.findIdx? (· == '.') with
  | none => none
  | some i => some (cs.length - 1 - i)

/-- Core of `os.path.splitext` on a plain file name (no path
separator, as the names used here are): split at the last dot, except
that a name whose characters before that dot are all dots (a leading-dot
file such as ".bashrc") is not split. -/
def splitextCore (cs : List Char) : List Char × List Char :=
  match lastDotIdx cs with
  | none => (cs, [])
  | some d =>
      if (cs.take d).all (· == '.') then (cs, [])
      else (cs.take d, cs.drop d)

/-- `os.path.splitext` on a plain file name. -/
def splitext (s : String) : String × String :=
  (String.mk (splitextCore s.data).1, String.mk (splitextCore s.data).2)

/-- `ANNEX_DIR` (src/app_4.py line 36), under the candidate data
directory. -/
def ANNEX_DIR : String := "/mount/data/workplan_data/annexes"

/-- `os.path.join` for an absolute directory and a plain file name. -/
def pathJoin (d f : String) : String := d ++ "/" ++ f

/-- Shallow embedding of one iteration of the `save_annexes_immediate`
loop (src/app_4.py lines 378-392) for an uploaded file named `name` with
contents `content`: the destination is `ANNEX_DIR/name`, renamed by
appending `_<timestamp t>` before the extension when that path already
exists.  Returns the stored path and the file system afterwards (the
best-effort GitHub push of the stored file does not touch the local file
system). -/
def save_annex_one (fs : AnnexFS) (name content : String) (t : Nat) :
    String × AnnexFS :=
  let out0 := pathJoin ANNEX_DIR name
  let out_path :=
    if fsExists fs out0 then
      let be := splitext name
      pathJoin ANNEX_DIR (be.1 ++ "_" ++ toString t ++ be.2)
    else out0
  (out_path, fsWrite fs out_path content)

/-! ### Step 3 — aggregate objectives render -/

/-- Python `str.strip()`: drop leading and trailing whitespace. -/
def pyWhitespace (c : Char) : Bool :=
  c == ' ' || c == '\t' || c == '\n' || c == '\r' || c == '\x0b' || c == '\x0c'

def pyStrip (s : String) : String :=
  String.mk (((s.data.dropWhile pyWhitespace).reverse.dropWhile pyWhitespace).reverse)

/-- The entry step 3 writes for one selected goal when the page is
rendered with every widget at its default (a revisit with no edits),
src/app_4.py lines 527-568: the multiselect defaults to the stored
values found in the lookup's objective list, the custom text boxes
default to the stored values outside it, and each custom box contributes
its stripped text when non-empty. -/
def step3_entry (aggList : List String) (oldSelected : List String) : List String :=
  let default_standard := oldSelected.filter (fun x => aggList.contains x)
  let old_custom := oldSelected.filter (fun x => !aggList.contains x)
  let custom_items := (old_custom.map pyStrip).filter (fun x => !(x == ""))
  default_standard ++ custom_items

/-- Rendering step 3 with widgets at their defaults rebuilds the
"Aggregate Objectives" mapping from scratch over the currently selected
goals only (src/app_4.py lines 520-571): `goal_to_agg` starts empty, one
entry is inserted per selected goal in order, and the result replaces the
stored mapping.  `aggLookup g` is the lookup table's objective list for
goal `g`; `oldAgg` is the stored mapping before the render. -/
def step3_render (aggLookup : String → List String) (selectedGoals : List String)
    (oldAgg : List (String × List String)) : List (String × List String) :=
  selectedGoals.map (fun g => (g, step3_entry (aggLookup g) ((oldAgg.lookup g).getD [])))

/-! ### Report assembly — annex section of `export_word` -/

/-- An element of the annex list the export receives: a record carrying
the original name (the shape step 8 stores), or a bare path string. -/
inductive AnnexItem where
  | record (original_name saved_path : String)
  | path (s : String)
deriving DecidableEq, Repr

/-- `os.path.basename` for a POSIX path. -/
def osBasename (s : String) : String :=
  String.mk ((s.data.reverse.takeWhile (· != '/')).reverse)

/-- The display name `export_word` derives for one annex item
(src/app_4.py lines 316-322). -/
def safeName : AnnexItem → String
  | .record n _ => n
  | .path s => osBasename s

/-- A line of the generated document, restricted to the constructs the
annex section emits. -/
inductive DocLine where
  | heading (level : Nat) (text : String)
  | para (text : String)
  | bullet (text : String)
deriving DecidableEq, Repr

/-- `add_bullet_list` (src/app_4.py lines 223-227): one bullet per item,
skipping falsy (empty) strings. -/
def add_bullet_list (items : List String) : List DocLine :=
  (items.filter (fun x => !(x == ""))).map DocLine.bullet

/-- The annex section of `export_word` (src/app_4.py lines 313-327):
heading "7. Annexes", then a bullet list of the annex display names, or
the single paragraph "No annexes uploaded." when there are none. -/
def export_word_annex_section (annex_items : List AnnexItem) : List DocLine :=
  let safe_names := annex_items.map safeName
  DocLine.heading 1 "7. Annexes" ::
    (if safe_names.isEmpty then [DocLine.para "No annexes uploaded."]
     else add_bullet_list safe_names)

/-! ### Theorems -/

/-- C1: whenever no credential is configured (`GITHUB_TOKEN` absent or
empty) or no repository identifier is configured, `push_file_to_github`
returns a failure immediately and issues zero network calls (no GET and
no PUT). -/
theorem push_not_configured_no_network (cfg : GhConfig)
    (localFile : Option (List Nat)) (path : String) (t : Transport)
    (h : tokenFalsy cfg.github_token = true ∨ cfg.github_repo = "") :
    (push_file_to_github cfg localFile path t).1.1 = false ∧
    (push_file_to_github cfg localFile path t).2 = [] := by
  unfold push_file_to_github
  rcases h with h | h
  · cases hu : cfg.use_github <;> simp [h, hu]
  · cases hu : cfg.use_github <;>
      cases ht : tokenFalsy cfg.github_token <;> simp [h, hu, ht]

/-- Witness for C1 at a concrete unconfigured state. -/
theorem push_not_configured_no_network_witness :
    (tokenFalsy (GhConfig.mk true none "sergioalf14/repo" "main").github_token = true ∨
      (GhConfig.mk true none "sergioalf14/repo" "main").github_repo = "") ∧
    ((push_file_to_github (GhConfig.mk true none "sergioalf14/repo" "main")
        (some [1, 2]) "master_log.xlsx"
        ⟨.ok ⟨200, some "s", ""⟩, fun _ => .ok ⟨200, none, ""⟩⟩).1.1 = false ∧
      (push_file_to_github (GhConfig.mk true none "sergioalf14/repo" "main")
        (some [1, 2]) "master_log.xlsx"
        ⟨.ok ⟨200, some "s", ""⟩, fun _ => .ok ⟨200, none, ""⟩⟩).2 = []) :=
  ⟨Or.inl rfl,
    push_not_configured_no_network _ _ _ _ (Or.inl rfl)⟩

/-- C3: appending a row when the existing master log is present but
unreadable still succeeds, and the resulting log contains only the new
row — the read failure is absorbed, never propagated. -/
theorem append_corrupt_log_recovers (row : LogRow) (fs : LogFS) (env : WriteEnv)
    (push : Bool × String)
    (hc : fs.master = some .corrupt) (hw : env.primaryWrite = .ok) :
    (save_to_master_excel row fs env push).1.1 = true ∧
    (save_to_master_excel row fs env push).2.master = some (.table [row]) := by
  cases hp : push.1 <;> simp [save_to_master_excel, readOldRows, hc, hw, hp]

/-- Witness for C3 at a concrete corrupt log. -/
theorem append_corrupt_log_recovers_witness :
    ((LogFS.mk (some .corrupt) none).master = some .corrupt ∧
      (WriteEnv.mk .ok true).primaryWrite = .ok) ∧
    ((save_to_master_excel ⟨"t", "d", "g", "x"⟩ ⟨some .corrupt, none⟩
        ⟨.ok, true⟩ (false, "no token")).1.1 = true ∧
      (save_to_master_excel ⟨"t", "d", "g", "x"⟩ ⟨some .corrupt, none⟩
        ⟨.ok, true⟩ (false, "no token")).2.master = some (.table [⟨"t", "d", "g", "x"⟩])) :=
  ⟨⟨rfl, rfl⟩, append_corrupt_log_recovers _ _ _ _ rfl rfl⟩

/-- C4: whenever the local write of the master log succeeds (at the
primary location or via the temp-directory fallback),
`save_to_master_excel` returns success whatever the GitHub push outcome
was, and the appended table persists at the written location — the
failed mirror never rolls back or fails the local write. -/
theorem append_local_success_ignores_push (row : LogRow) (fs : LogFS)
    (env : WriteEnv) (push : Bool × String)
    (h : env.primaryWrite = .ok ∨
      (env.primaryWrite = .permissionError ∧ env.fallbackWrite = true)) :
    (save_to_master_excel row fs env push).1.1 = true ∧
    ((save_to_master_excel row fs env push).2.master =
        some (.table (readOldRows fs.master ++ [row])) ∨
      (save_to_master_excel row fs env push).2.fallbackMaster =
        some (.table (readOldRows fs.master ++ [row]))) := by
  rcases h with h | ⟨h, hf⟩
  · cases hp : push.1 <;> simp [save_to_master_excel, h, hp]
  · cases hp : push.1 <;> simp [save_to_master_excel, h, hf, hp]

/-- Witness for C4 at a concrete state with a failing push. -/
theorem append_local_success_ignores_push_witness :
    ((WriteEnv.mk .ok true).primaryWrite = .ok ∨
      ((WriteEnv.mk .ok true).primaryWrite = .permissionError ∧
        (WriteEnv.mk .ok true).fallbackWrite = true)) ∧
    ((save_to_master_excel ⟨"t", "d", "g", "x"⟩ ⟨none, none⟩
        ⟨.ok, true⟩ (false, "GitHub upload failed: 500 - oops")).1.1 = true ∧
      ((save_to_master_excel ⟨"t", "d", "g", "x"⟩ ⟨none, none⟩
          ⟨.ok, true⟩ (false, "GitHub upload failed: 500 - oops")).2.master =
          some (.table (readOldRows (LogFS.mk none none).master ++ [⟨"t", "d", "g", "x"⟩])) ∨
        (save_to_master_excel ⟨"t", "d", "g", "x"⟩ ⟨none, none⟩
          ⟨.ok, true⟩ (false, "GitHub upload failed: 500 - oops")).2.fallbackMaster =
          some (.table (readOldRows (LogFS.mk none none).master ++ [⟨"t", "d", "g", "x"⟩])))) :=
  ⟨Or.inl rfl, append_local_success_ignores_push _ _ _ _ (Or.inl rfl)⟩

/-- C9: assembling the report for an answer tree with no annexes renders
the annex section as the heading followed by the single literal
paragraph "No annexes uploaded." — no bullet list. -/
theorem export_empty_annexes_paragraph :
    export_word_annex_section [] =
      [DocLine.heading 1 "7. Annexes", DocLine.para "No annexes uploaded."] := rfl

/-- Helper for C5: the lower bound 1 is preserved by every sequence of
navigation clicks. -/
theorem runNav_one_le (ops : List NavOp) :
    ∀ s : SessionState, 1 ≤ s.step → 1 ≤ (runNav s ops).step := by
  induction ops with
  | nil => intro s hs; exact hs
  | cons op rest ih =>
      intro s hs
      cases op with
      | next => exact ih _ (by show (1 : Int) ≤ s.step + 1; omega)
      | prev =>
          refine ih _ ?_
          unfold prev_step
          split
          · rename_i hgt
            show (1 : Int) ≤ s.step - 1
            omega
          · exact hs

/-- C5 counterexample: at the terminal step (step 8, the last page
app_4.py renders), `next_step` still increments, taking the current step
to 9, outside the bound [1, 8] — the claimed terminal-step guard does
not exist in the code. -/
theorem next_step_no_terminal_guard :
    (next_step ⟨stepCount⟩).step = stepCount + 1 ∧
    ¬((next_step ⟨stepCount⟩).step ≤ stepCount) := by decide

/-- C5 (amended): `prev_step` decrements by 1 only when the current step
is above 1, so the step never drops below 1 under any click sequence;
`next_step`, however, increments by 1 unconditionally — it has no
terminal-step guard, so the upper bound N is not enforced by the
transition functions (the terminal page merely renders no Next
button). -/
theorem nav_transitions (ops : List NavOp) (s : SessionState)
    (h : 1 ≤ s.step) :
    1 ≤ (runNav s ops).step ∧
    (∀ s' : SessionState, (next_step s').step = s'.step + 1) ∧
    (∀ s' : SessionState, 1 < s'.step → (prev_step s').step = s'.step - 1) ∧
    (∀ s' : SessionState, s'.step = 1 → prev_step s' = s') := by
  refine ⟨runNav_one_le ops s h, fun s' => rfl, ?_, ?_⟩
  · intro s' hs'
    unfold prev_step
    split
    · rfl
    · omega
  · intro s' hs'
    unfold prev_step
    split
    · omega
    · rfl

/-- Witness for C5 (amended) at a concrete click sequence from step 1. -/
theorem nav_transitions_witness :
    (1 ≤ (SessionState.mk 1).step) ∧
    (1 ≤ (runNav ⟨1⟩ [.prev, .next, .next, .prev]).step ∧
      (∀ s' : SessionState, (next_step s').step = s'.step + 1) ∧
      (∀ s' : SessionState, 1 < s'.step → (prev_step s').step = s'.step - 1) ∧
      (∀ s' : SessionState, s'.step = 1 → prev_step s' = s')) :=
  ⟨by decide, nav_transitions [.prev, .next, .next, .prev] ⟨1⟩ (by decide)⟩

/-- Helper for C7: one `save_to_master_excel` call with a succeeding
primary write replaces the master file by the old readable rows plus the
new row, whatever the push outcome. -/
theorem save_master_step (row : LogRow) (fs : LogFS) (env : WriteEnv)
    (push : Bool × String) (hw : env.primaryWrite = .ok) :
    (save_to_master_excel row fs env push).2 =
      { fs with master := some (.table (readOldRows fs.master ++ [row])) } := by
  cases hp : push.1 <;> simp [save_to_master_excel, hw, hp]

/-- Helper for C7: iterating `save_to_master_excel` over a non-empty
call list appends the rows in call order after the rows already readable
in the master log. -/
theorem appendAll_master_ok (env : WriteEnv) (hw : env.primaryWrite = .ok) :
    ∀ (calls : List (LogRow × (Bool × String))) (fs : LogFS), calls ≠ [] →
      (appendAll fs env calls).master =
        some (.table (readOldRows fs.master ++ calls.map (fun c => c.1))) := by
  intro calls
  induction calls with
  | nil => intro fs h; exact absurd rfl h
  | cons c rest ih =>
      intro fs _
      obtain ⟨row, push⟩ := c
      cases rest with
      | nil => simp [appendAll, save_master_step row fs env push hw, readOldRows]
      | cons c2 rest2 =>
          have h2 := ih { fs with master := some (.table (readOldRows fs.master ++ [row])) }
            (by simp)
          rw [show appendAll fs env ((row, push) :: c2 :: rest2) =
                appendAll (save_to_master_excel row fs env push).2 env (c2 :: rest2) from rfl,
            save_master_step row fs env push hw, h2]
          simp [readOldRows]

/-- C7 counterexample: with a pre-existing master log holding one row,
one append call (N = 1) yields a log with two rows, not exactly N = 1 —
the pre-existing rows are kept, so "exactly N rows regardless of whether
a log pre-existed" fails. -/
theorem append_preexisting_not_exactly_n :
    (appendAll ⟨some (.table [⟨"t0", "d0", "g0", "x0"⟩]), none⟩ ⟨.ok, true⟩
        [(⟨"t1", "d1", "g1", "x1"⟩, (true, ""))]).master =
      some (.table [⟨"t0", "d0", "g0", "x0"⟩, ⟨"t1", "d1", "g1", "x1"⟩]) ∧
    readOldRows (appendAll ⟨some (.table [⟨"t0", "d0", "g0", "x0"⟩]), none⟩ ⟨.ok, true⟩
        [(⟨"t1", "d1", "g1", "x1"⟩, (true, ""))]).master ≠
      [⟨"t1", "d1", "g1", "x1"⟩] := by decide

/-- C7 (amended): N `save_to_master_excel` calls whose primary writes
succeed yield a master log holding the previously readable rows followed
by the N new rows in call order; when no log pre-existed, the log
contains exactly the N new rows in call order. -/
theorem appendAll_rows_in_order (fs : LogFS) (env : WriteEnv)
    (calls : List (LogRow × (Bool × String)))
    (hw : env.primaryWrite = .ok) (hne : calls ≠ []) :
    (appendAll fs env calls).master =
      some (.table (readOldRows fs.master ++ calls.map (fun c => c.1))) ∧
    (fs.master = none →
      (appendAll fs env calls).master = some (.table (calls.map (fun c => c.1)))) := by
  refine ⟨appendAll_master_ok env hw calls fs hne, fun h0 => ?_⟩
  rw [appendAll_master_ok env hw calls fs hne, h0]
  simp [readOldRows]

/-- Witness for C7 (amended): two concrete appends to an absent log. -/
theorem appendAll_rows_in_order_witness :
    ((WriteEnv.mk .ok true).primaryWrite = .ok ∧
      ([(⟨"t1", "d1", "g1", "x1"⟩, (true, "")),
        (⟨"t2", "d2", "g2", "x2"⟩, (false, "m"))] :
          List (LogRow × (Bool × String))) ≠ []) ∧
    ((appendAll ⟨none, none⟩ ⟨.ok, true⟩
        [(⟨"t1", "d1", "g1", "x1"⟩, (true, "")),
          (⟨"t2", "d2", "g2", "x2"⟩, (false, "m"))]).master =
      some (.table (readOldRows (LogFS.mk none none).master ++
        ([(⟨"t1", "d1", "g1", "x1"⟩, (true, "")),
          (⟨"t2", "d2", "g2", "x2"⟩, (false, "m"))] :
            List (LogRow × (Bool × String))).map (fun c => c.1))) ∧
      ((LogFS.mk none none).master = none →
        (appendAll ⟨none, none⟩ ⟨.ok, true⟩
          [(⟨"t1", "d1", "g1", "x1"⟩, (true, "")),
            (⟨"t2", "d2", "g2", "x2"⟩, (false, "m"))]).master =
          some (.table (([(⟨"t1", "d1", "g1", "x1"⟩, (true, "")),
            (⟨"t2", "d2", "g2", "x2"⟩, (false, "m"))] :
              List (LogRow × (Bool × String))).map (fun c => c.1))))) :=
  ⟨⟨rfl, by decide⟩,
    appendAll_rows_in_order ⟨none, none⟩ ⟨.ok, true⟩ _ rfl (by decide)⟩

/-- C10: when the existence-check GET answers HTTP 200 but no revision
marker can be extracted from its body (unparseable JSON or a missing sha
field, both collapsing to `shaField = none`), the upload does not fail
with a read error: it proceeds to issue the PUT as a create-style commit
— the payload carries no sha and the commit message is the "Add" one. -/
theorem push_unreadable_sha_creates (cfg : GhConfig) (bytes : List Nat)
    (path body : String) (t : Transport)
    (hu : cfg.use_github = true) (ht : tokenFalsy cfg.github_token = false)
    (hr : ¬cfg.github_repo = "")
    (hg : t.getResp = .ok ⟨200, none, body⟩) :
    (push_file_to_github cfg (some bytes) path t).2 =
      [.get, .put ⟨"Add " ++ path, b64encode bytes, cfg.github_branch, none⟩] := by
  unfold push_file_to_github
  rw [hu, ht, hg]
  simp only [if_neg hr]
  norm_num
  cases hput : t.putResp ⟨"Add " ++ path, b64encode bytes, cfg.github_branch, none⟩ with
  | error e => simp [hput]
  | ok r2 =>
      by_cases hs : r2.status = 200 ∨ r2.status = 201 <;> simp [hput, hs]

/-- Witness for C10 at a concrete configuration and transport. -/
theorem push_unreadable_sha_creates_witness :
    ((GhConfig.mk true (some "tok") "sergioalf14/repo" "main").use_github = true ∧
      tokenFalsy (GhConfig.mk true (some "tok") "sergioalf14/repo" "main").github_token = false ∧
      ¬(GhConfig.mk true (some "tok") "sergioalf14/repo" "main").github_repo = "" ∧
      (Transport.mk (.ok ⟨200, none, "not json"⟩) (fun _ => .ok ⟨201, none, "ok"⟩)).getResp =
        .ok ⟨200, none, "not json"⟩) ∧
    (push_file_to_github (GhConfig.mk true (some "tok") "sergioalf14/repo" "main")
        (some [7, 8]) "workplans/w.docx"
        (Transport.mk (.ok ⟨200, none, "not json"⟩) (fun _ => .ok ⟨201, none, "ok"⟩))).2 =
      [.get, .put ⟨"Add " ++ "workplans/w.docx", b64encode [7, 8],
        (GhConfig.mk true (some "tok") "sergioalf14/repo" "main").github_branch, none⟩] :=
  ⟨⟨rfl, rfl, by decide, rfl⟩,
    push_unreadable_sha_creates _ _ _ _ _ rfl rfl (by decide) rfl⟩

/-- Helper for C2: an upsert against a store with no record at the path
sees the 404, issues a create-style PUT (no sha), succeeds, and leaves
the store holding the new record. -/
theorem pushRound_create (cfg : GhConfig) (c1 : List Nat) (path : String)
    (store : RemoteStore)
    (hu : cfg.use_github = true) (ht : tokenFalsy cfg.github_token = false)
    (hr : ¬cfg.github_repo = "") (h0 : store.lookup path = none) :
    pushRound cfg (some c1) path store =
      ((true, "Pushed to GitHub: " ++ path),
        [.get, .put ⟨"Add " ++ path, b64encode c1, cfg.github_branch, none⟩],
        (path, ⟨b64encode c1, shaOf (b64encode c1)⟩) :: store) := by
  unfold pushRound push_file_to_github storeTransport
  rw [hu, ht]
  simp only [if_neg hr]
  simp [remoteGet, remotePut, applyCalls, h0]

/-- Helper for C2: an upsert against a store holding a record at the
path sees HTTP 200, extracts the record's revision marker, issues an
update-style PUT carrying that marker, succeeds, and leaves the store
holding the new content. -/
theorem pushRound_update (cfg : GhConfig) (c2 : List Nat) (path : String)
    (store : RemoteStore) (rec : RemoteRecord)
    (hu : cfg.use_github = true) (ht : tokenFalsy cfg.github_token = false)
    (hr : ¬cfg.github_repo = "") (h1 : store.lookup path = some rec) :
    pushRound cfg (some c2) path store =
      ((true, "Pushed to GitHub: " ++ path),
        [.get, .put ⟨"Update " ++ path, b64encode c2, cfg.github_branch, some rec.sha⟩],
        (path, ⟨b64encode c2, shaOf (b64encode c2)⟩) :: store.eraseP (·.1 == path)) := by
  unfold pushRound push_file_to_github storeTransport
  rw [hu, ht]
  simp only [if_neg hr]
  simp [remoteGet, remotePut, applyCalls, h1]

/-- C2: with the client configured, two upsert calls to the same remote
path against a store that initially has no record there both succeed
(the contents may be identical or different): the first creates the
record, and the second call's GET observes it, extracts the revision
marker of the first call's content, and issues its PUT carrying that
marker with the "Update" commit message — an update, not a duplicate
create. -/
theorem push_twice_second_is_update (cfg : GhConfig) (c1 c2 : List Nat)
    (path : String) (store : RemoteStore)
    (hu : cfg.use_github = true) (ht : tokenFalsy cfg.github_token = false)
    (hr : ¬cfg.github_repo = "") (h0 : store.lookup path = none) :
    (pushRound cfg (some c1) path store).1.1 = true ∧
    (pushRound cfg (some c2) path (pushRound cfg (some c1) path store).2.2).1.1 = true ∧
    (pushRound cfg (some c2) path (pushRound cfg (some c1) path store).2.2).2.1 =
      [.get, .put ⟨"Update " ++ path, b64encode c2, cfg.github_branch,
        some (shaOf (b64encode c1))⟩] := by
  have h1 := pushRound_create cfg c1 path store hu ht hr h0
  have hlook : ((path, (⟨b64encode c1, shaOf (b64encode c1)⟩ : RemoteRecord)) ::
      store).lookup path = some ⟨b64encode c1, shaOf (b64encode c1)⟩ := by
    simp [List.lookup]
  have h2 := pushRound_update cfg c2 path
    ((path, ⟨b64encode c1, shaOf (b64encode c1)⟩) :: store)
    ⟨b64encode c1, shaOf (b64encode c1)⟩ hu ht hr hlook
  rw [h1]
  simp [h2]

/-- Witness for C2: two pushes of the same concrete content to the same
path against an initially empty store. -/
theorem push_twice_second_is_update_witness :
    ((GhConfig.mk true (some "tok") "sergioalf14/repo" "main").use_github = true ∧
      tokenFalsy (GhConfig.mk true (some "tok") "sergioalf14/repo" "main").github_token = false ∧
      ¬(GhConfig.mk true (some "tok") "sergioalf14/repo" "main").github_repo = "" ∧
      ([] : RemoteStore).lookup "master_log.xlsx" = none) ∧
    ((pushRound (GhConfig.mk true (some "tok") "sergioalf14/repo" "main")
        (some [1, 2, 3]) "master_log.xlsx" []).1.1 = true ∧
      (pushRound (GhConfig.mk true (some "tok") "sergioalf14/repo" "main")
        (some [1, 2, 3]) "master_log.xlsx"
        (pushRound (GhConfig.mk true (some "tok") "sergioalf14/repo" "main")
          (some [1, 2, 3]) "master_log.xlsx" []).2.2).1.1 = true ∧
      (pushRound (GhConfig.mk true (some "tok") "sergioalf14/repo" "main")
        (some [1, 2, 3]) "master_log.xlsx"
        (pushRound (GhConfig.mk true (some "tok") "sergioalf14/repo" "main")
          (some [1, 2, 3]) "master_log.xlsx" []).2.2).2.1 =
        [.get, .put ⟨"Update " ++ "master_log.xlsx", b64encode [1, 2, 3],
          (GhConfig.mk true (some "tok") "sergioalf14/repo" "main").github_branch,
          some (shaOf (b64encode [1, 2, 3]))⟩]) :=
  ⟨⟨rfl, rfl, by decide, rfl⟩,
    push_twice_second_is_update _ [1, 2, 3] [1, 2, 3] "master_log.xlsx" []
      rfl rfl (by decide) rfl⟩

/-- Splitting a name at its extension and re-concatenating gives the
name back. -/
theorem splitextCore_append (cs : List Char) :
    (splitextCore cs).1 ++ (splitextCore cs).2 = cs := by
  unfold splitextCore
  cases h : lastDotIdx cs with
  | none => simp
  | some d =>
      by_cases hall : (cs.take d).all (· == '.')
      · simp [hall]
      · simp [hall, List.take_append_drop]

theorem splitext_append (s : String) :
    (splitext s).1 ++ (splitext s).2 = s := by
  show String.mk ((splitextCore s.data).1 ++ (splitextCore s.data).2) = s
  rw [splitextCore_append]

/-- The disambiguated annex path (timestamp inserted before the
extension) is never the original path: it is strictly longer. -/
theorem disambiguated_path_ne (name : String) (t : Nat) :
    pathJoin ANNEX_DIR ((splitext name).1 ++ "_" ++ toString t ++ (splitext name).2) ≠
      pathJoin ANNEX_DIR name := by
  intro h
  have hsum : (splitext name).1.length + (splitext name).2.length = name.length := by
    have hc := congrArg String.length (splitext_append name)
    rwa [String.length_append] at hc
  have hlen := congrArg String.length h
  have h1 : String.length "_" = 1 := rfl
  have h2 : String.length "/" = 1 := rfl
  simp [pathJoin, String.length_append, h1, h2] at hlen
  omega

/-- Looking up a key other than the erased one is unaffected by the
erasure. -/
theorem lookup_eraseP_ne (fs : AnnexFS) (p q : String) (h : ¬q = p) :
    (fs.eraseP (·.1 == p)).lookup q = fs.lookup q := by
  induction fs with
  | nil => rfl
  | cons kv rest ih =>
      obtain ⟨k, v⟩ := kv
      by_cases hk : k = p
      · subst hk
        have hqk : (q == k) = false := beq_eq_false_iff_ne.mpr h
        simp [List.eraseP, List.lookup, hqk]
      · have hkp : (k == p) = false := beq_eq_false_iff_ne.mpr hk
        cases hqk : (q == k) <;> simp [List.eraseP, List.lookup, hkp, hqk, ih]

theorem lookup_fsWrite_self (fs : AnnexFS) (p c : String) :
    (fsWrite fs p c).lookup p = some c := by
  simp [fsWrite, List.lookup]

theorem lookup_fsWrite_ne (fs : AnnexFS) (p c q : String) (h : ¬q = p) :
    (fsWrite fs p c).lookup q = fs.lookup q := by
  have hqp : (q == p) = false := beq_eq_false_iff_ne.mpr h
  simp [fsWrite, List.lookup, hqp, lookup_eraseP_ne fs p q h]

/-- C6: two annex saves with the same original file name, the first of
which finds its destination free, store under two distinct paths — the
second save detects the collision and writes under the name with a
timestamp disambiguator before the extension — and afterwards both
contents are retrievable at their paths, neither write having
overwritten the other. -/
theorem save_annex_twice_distinct (fs : AnnexFS) (name c1 c2 : String)
    (t1 t2 : Nat) (h0 : fsExists fs (pathJoin ANNEX_DIR name) = false) :
    (save_annex_one fs name c1 t1).1 ≠
      (save_annex_one (save_annex_one fs name c1 t1).2 name c2 t2).1 ∧
    (save_annex_one (save_annex_one fs name c1 t1).2 name c2 t2).2.lookup
      (save_annex_one fs name c1 t1).1 = some c1 ∧
    (save_annex_one (save_annex_one fs name c1 t1).2 name c2 t2).2.lookup
      (save_annex_one (save_annex_one fs name c1 t1).2 name c2 t2).1 = some c2 := by
  have e1 : save_annex_one fs name c1 t1 =
      (pathJoin ANNEX_DIR name, fsWrite fs (pathJoin ANNEX_DIR name) c1) := by
    simp [save_annex_one, h0]
  have hex : fsExists (fsWrite fs (pathJoin ANNEX_DIR name) c1)
      (pathJoin ANNEX_DIR name) = true := by
    simp [fsExists, lookup_fsWrite_self]
  have e2 : save_annex_one (fsWrite fs (pathJoin ANNEX_DIR name) c1) name c2 t2 =
      (pathJoin ANNEX_DIR ((splitext name).1 ++ "_" ++ toString t2 ++ (splitext name).2),
        fsWrite (fsWrite fs (pathJoin ANNEX_DIR name) c1)
          (pathJoin ANNEX_DIR ((splitext name).1 ++ "_" ++ toString t2 ++ (splitext name).2))
          c2) := by
    simp [save_annex_one, hex]
  have hne := disambiguated_path_ne name t2
  rw [e1]
  simp only [e2]
  refine ⟨fun h => hne h.symm, ?_, lookup_fsWrite_self _ _ _⟩
  rw [lookup_fsWrite_ne _ _ _ _ (fun h => hne h.symm)]
  exact lookup_fsWrite_self _ _ _

/-- Witness for C6 at a concrete pair of uploads named "report.pdf". -/
theorem save_annex_twice_distinct_witness :
    fsExists [] (pathJoin ANNEX_DIR "report.pdf") = false ∧
    ((save_annex_one [] "report.pdf" "AAA" 5).1 ≠
      (save_annex_one (save_annex_one [] "report.pdf" "AAA" 5).2 "report.pdf" "BBB" 7).1 ∧
    (save_annex_one (save_annex_one [] "report.pdf" "AAA" 5).2 "report.pdf" "BBB" 7).2.lookup
      (save_annex_one [] "report.pdf" "AAA" 5).1 = some "AAA" ∧
    (save_annex_one (save_annex_one [] "report.pdf" "AAA" 5).2 "report.pdf" "BBB" 7).2.lookup
      (save_annex_one (save_annex_one [] "report.pdf" "AAA" 5).2 "report.pdf" "BBB" 7).1 =
      some "BBB") :=
  ⟨rfl, save_annex_twice_distinct [] "report.pdf" "AAA" "BBB" 5 7 rfl⟩

/-- Looking up a present key in a mapping built by tabulating a
function over a key list yields that function's value. -/
theorem lookup_map_of_mem {α : Type} (e : String → α) (gs : List String)
    (g : String) (h : g ∈ gs) :
    (gs.map (fun x => (x, e x))).lookup g = some (e g) := by
  induction gs with
  | nil => cases h
  | cons a rest ih =>
      by_cases hg : g = a
      · subst hg; simp [List.lookup]
      · have hb : (g == a) = false := beq_eq_false_iff_ne.mpr hg
        rcases List.mem_cons.mp h with h' | h'
        · exact absurd h' hg
        · simp [List.lookup, hb, ih h']

/-- Looking up an absent key in such a tabulated mapping yields
nothing. -/
theorem lookup_map_of_not_mem {α : Type} (e : String → α) (gs : List String)
    (g : String) (h : g ∉ gs) :
    (gs.map (fun x => (x, e x))).lookup g = none := by
  induction gs with
  | nil => rfl
  | cons a rest ih =>
      have hg : ¬g = a := fun he => h (he ▸ List.mem_cons_self a rest)
      have hb : (g == a) = false := beq_eq_false_iff_ne.mpr hg
      simp only [List.map_cons, List.lookup, hb]
      exact ih fun hm => h (List.mem_cons_of_mem _ hm)

/-- A stored entry in the shape the step-3 write path produces —
lookup-listed objectives first, then custom ones that are stripped and
non-empty — passes through a default-valued re-render unchanged. -/
theorem step3_entry_preserved (aggList : List String) (s c : List String)
    (hs : ∀ x ∈ s, aggList.contains x = true)
    (hc : ∀ x ∈ c, aggList.contains x = false)
    (hstrip : ∀ x ∈ c, pyStrip x = x ∧ ¬x = "") :
    step3_entry aggList (s ++ c) = s ++ c := by
  have h1 : (s ++ c).filter (fun x => aggList.contains x) = s := by
    rw [List.filter_append, List.filter_eq_self.mpr hs,
      List.filter_eq_nil_iff.mpr (fun x hx => by simpa using hc x hx), List.append_nil]
  have h2 : (s ++ c).filter (fun x => !aggList.contains x) = c := by
    rw [List.filter_append,
      List.filter_eq_nil_iff.mpr (fun x hx => by simpa using hs x hx),
      List.filter_eq_self.mpr (fun x hx => by simpa using hc x hx), List.nil_append]
  have h3 : c.map pyStrip = c := by
    rw [List.map_congr_left (fun x hx => (hstrip x hx).1)]
    simp
  have h4 : c.filter (fun x => !(x == "")) = c := by
    refine List.filter_eq_self.mpr fun x hx => ?_
    have hne := (hstrip x hx).2
    simp [hne]
  show (s ++ c).filter (fun x => aggList.contains x) ++
      ((((s ++ c).filter (fun x => !aggList.contains x)).map pyStrip).filter
        (fun x => !(x == ""))) = s ++ c
  rw [h1, h2, h3, h4]

/-- C8: a step-3 render rebuilds the aggregate-objectives mapping with
exactly the currently selected goals as keys, in order; a goal no longer
selected has its key absent from the result (silently dropped, no
failure possible — the render is a total function), and any still
selected goal whose stored entry has the shape the write path produces
keeps that entry unchanged. -/
theorem step3_render_keys_and_preservation (f : String → List String)
    (gs : List String) (old : List (String × List String)) :
    (step3_render f gs old).map Prod.fst = gs ∧
    (∀ g, g ∉ gs → (step3_render f gs old).lookup g = none) ∧
    (∀ g s c, g ∈ gs →
      (old.lookup g).getD [] = s ++ c →
      (∀ x ∈ s, (f g).contains x = true) →
      (∀ x ∈ c, (f g).contains x = false) →
      (∀ x ∈ c, pyStrip x = x ∧ ¬x = "") →
      (step3_render f gs old).lookup g = some (s ++ c)) := by
  refine ⟨by simp [step3_render, Function.comp_def], ?_, ?_⟩
  · intro g hg
    exact lookup_map_of_not_mem _ gs g hg
  · intro g s c hg hold hs hc hstrip
    unfold step3_render
    rw [lookup_map_of_mem (fun x => step3_entry (f x) ((old.lookup x).getD [])) gs g hg,
      hold, step3_entry_preserved (f g) s c hs hc hstrip]

/-- Witness for C8: goal "G2" was deselected, goal "G1" keeps its mixed
standard-plus-custom entry. -/
theorem step3_render_keys_and_preservation_witness :
    (("G1" : String) ∈ ["G1"] ∧ ("G2" : String) ∉ ["G1"]) ∧
    ((step3_render (fun g => if g = "G1" then ["A", "B"] else []) ["G1"]
        [("G1", ["A", "X"]), ("G2", ["B"])]).map Prod.fst = ["G1"] ∧
      (step3_render (fun g => if g = "G1" then ["A", "B"] else []) ["G1"]
        [("G1", ["A", "X"]), ("G2", ["B"])]).lookup "G2" = none ∧
      (step3_render (fun g => if g = "G1" then ["A", "B"] else []) ["G1"]
        [("G1", ["A", "X"]), ("G2", ["B"])]).lookup "G1" = some (["A"] ++ ["X"])) :=
  ⟨⟨by decide, by decide⟩,
    (step3_render_keys_and_preservation _ _ _).1,
    (step3_render_keys_and_preservation _ _ _).2.1 "G2" (by decide),
    (step3_render_keys_and_preservation _ _ _).2.2 "G1" ["A"] ["X"] (by decide)
      (by decide) (by decide) (by decide) (by decide)⟩

end Workplan
